import Mathlib

/-!
Verification of the QuickURL URL-shortener core (src/main.rs, src/token.rs,
src/models.rs), shallowly embedded in Lean.

Timestamps (`chrono::DateTime<Utc>`) are modelled as integers counting
seconds; `chrono::Duration::days 30` is `30 * 86400` seconds.  The SQLite
table `urls` is modelled as a list of records; the SQL statements issued by
the handlers become list operations.  Randomness (the `rand` thread rng and
the token generator built on it) is modelled by threading an explicit stream
of pre-drawn values, indexed by call number.
-/

set_option maxHeartbeats 1000000

namespace QuickURL

/-- The URL record persisted in the `urls` table (columns of the INSERT in
`create_short_url`). -/
structure UrlRecord where
  id : String
  token : String
  original_url : String
  title : Option String
  created_at : Int
  expires_at : Int
  click_count : Int
deriving DecidableEq

/-- The `urls` table. -/
abbrev Store := List UrlRecord

/-- `SELECT * FROM urls WHERE token = ?` with `fetch_optional`. -/
def getByToken (s : Store) (t : String) : Option UrlRecord :=
  s.find? (fun r => r.token == t)

/-- `INSERT INTO urls ...`: fails (`ConflictError`) when the unique keys
`token` or `id` already exist, else appends the row. -/
def insertRecord (s : Store) (r : UrlRecord) : Option Store :=
  if s.any (fun q => q.token == r.token || q.id == r.id) then none
  else some (s ++ [r])

/-- `UPDATE urls SET click_count = click_count + 1 WHERE token = ?`; returns
the new table and the number of rows affected. -/
def incrementClickCount (s : Store) (t : String) : Store × Nat :=
  (s.map (fun r => if r.token == t then { r with click_count := r.click_count + 1 } else r),
   s.countP (fun r => r.token == t))

/-- `DELETE FROM urls WHERE token = ?`; returns the new table and the number
of rows affected. -/
def deleteByToken (s : Store) (t : String) : Store × Nat :=
  (s.filter (fun r => r.token != t), s.countP (fun r => r.token == t))

deriving instance DecidableEq for Except

/-- Rust `str::starts_with`, modelled on the underlying character list (a
prefix test) so that concrete instances evaluate inside proofs. -/
def strStartsWith (s p : String) : Bool := p.data.isPrefixOf s.data

/-- `AppError` from main.rs. -/
inductive AppError where
  | DatabaseError : String → AppError
  | NotFound : String → AppError
  | BadRequest : String → AppError
  | Gone : String → AppError
deriving DecidableEq

/-- `CreateUrlRequest` from models.rs. -/
structure CreateUrlRequest where
  url : String
  title : Option String
  expires_at : Option Int
deriving DecidableEq

/-- `CreateUrlResponse` from models.rs. -/
structure CreateUrlResponse where
  id : String
  token : String
  original_url : String
  short_url : String
  title : Option String
  created_at : Int
  expires_at : Int
  click_count : Int
deriving DecidableEq

/-- `chrono::Duration::days(30)` in seconds. -/
def thirtyDays : Int := 30 * 86400

/-- Stand-in for the sqlx error string produced by a uniqueness violation
(the code surfaces `e.to_string()`; the exact text comes from the driver). -/
def conflictMsg : String := "UNIQUE constraint failed: urls.token"

/-- The `create_short_url` handler.  `gen n` is the value of the n-th call to
`state.token_gen.generate()` (the body makes exactly one such call), `id` the
freshly minted UUID, `now1` the `chrono::Utc::now()` read bound to
`created_at`, and `now2` the second `chrono::Utc::now()` read made inside
`unwrap_or_else` when `expires_at` is absent.  Returns the handler result and
the table after the request. -/
def create_short_url (st : Store) (payload : CreateUrlRequest)
    (gen : Nat → String) (id : String) (now1 now2 : Int) :
    Except AppError CreateUrlResponse × Store :=
  if !strStartsWith payload.url "http://" && !strStartsWith payload.url "https://" then
    (.error (.BadRequest "URL must start with http:// or https://"), st)
  else
    let token := gen 0
    let created_at := now1
    let expires_at := payload.expires_at.getD (now2 + thirtyDays)
    let row : UrlRecord :=
      { id := id, token := token, original_url := payload.url,
        title := payload.title, created_at := created_at, expires_at := expires_at,
        click_count := 0 }
    match insertRecord st row with
    | none => (.error (.DatabaseError conflictMsg), st)
    | some st' =>
        let resp : CreateUrlResponse :=
          { id := id, token := token, original_url := payload.url,
            short_url := "http://localhost:3000/" ++ token,
            title := payload.title, created_at := created_at,
            expires_at := expires_at, click_count := 0 }
        (.ok resp, st')

/-- The `redirect_url` handler at current time `now`: lookup, expiry check
(`chrono::Utc::now() > expires_at`), atomic increment, redirect to
`original_url`. -/
def redirect_url (st : Store) (token : String) (now : Int) :
    Except AppError String × Store :=
  match getByToken st token with
  | some row =>
      if now > row.expires_at then
        (.error (.Gone "URL has expired"), st)
      else
        (.ok row.original_url, (incrementClickCount st token).1)
  | none => (.error (.NotFound "URL not found"), st)

/-- The `delete_url` handler: unconditional DELETE, then 404 when zero rows
were affected, else 204. -/
def delete_url (st : Store) (token : String) : Except AppError Unit × Store :=
  let res := deleteByToken st token
  if res.2 = 0 then (.error (.NotFound "URL not found"), res.1)
  else (.ok (), res.1)

/-- CHARSET from token.rs. -/
def CHARSET : List Char :=
  "ABCDEFGHIJKLMNOPQRSTUVWXYZabcdefghijklmnopqrstuvwxyz0123456789".toList

/-- `TokenGenerator` from token.rs. -/
structure TokenGenerator where
  length : Nat

/-- `TokenGenerator::new`. -/
def TokenGenerator.new : TokenGenerator := { length := 6 }

/-- `TokenGenerator::with_length`. -/
def TokenGenerator.with_length (n : Nat) : TokenGenerator := { length := n }

/-- `TokenGenerator::generate`: `rng i` is the value drawn by the i-th call
to `rng.gen_range(0..CHARSET.len())` (whose contract keeps it below
`CHARSET.length`; the hypothesis appears in the theorems). -/
def TokenGenerator.generate (g : TokenGenerator) (rng : Nat → Nat) : String :=
  String.mk ((List.range g.length).map (fun i => CHARSET.getD (rng i) 'A'))

/-- Result classifiers (the HTTP layer maps these constructors to 500, 404,
400 and 410 respectively). -/
def isDbError {α : Type} : Except AppError α → Bool
  | .error (.DatabaseError _) => true
  | _ => false

def isNotFound {α : Type} : Except AppError α → Bool
  | .error (.NotFound _) => true
  | _ => false

def isBadRequest {α : Type} : Except AppError α → Bool
  | .error (.BadRequest _) => true
  | _ => false

def isGone {α : Type} : Except AppError α → Bool
  | .error (.Gone _) => true
  | _ => false

def isOk {α : Type} : Except AppError α → Bool
  | .ok _ => true
  | _ => false

/-- The `expires_at` of a successful creation response. -/
def respExpires : Except AppError CreateUrlResponse → Option Int
  | .ok r => some r.expires_at
  | .error _ => none

/-- The `created_at` of a successful creation response. -/
def respCreated : Except AppError CreateUrlResponse → Option Int
  | .ok r => some r.created_at
  | .error _ => none

/-- The `click_count` of a successful creation response. -/
def respClicks : Except AppError CreateUrlResponse → Option Int
  | .ok r => some r.click_count
  | .error _ => none

/-! Interleaving model for concurrent `redirect_url` requests (§5 of the
spec).  Each in-flight request for the same token is a small state machine;
the SELECT and the UPDATE are its two atomic store accesses (each SQL
statement is one transaction), and a schedule interleaves them freely. -/

/-- Phase of one in-flight `redirect_url` request: `start` = SELECT still to
run, `checked` = SELECT done and the expiry check passed with the UPDATE
still pending, `done` = request finished (successfully or not). -/
inductive Phase where
  | start
  | checked
  | done
deriving DecidableEq

/-- One atomic step of a request in phase `p` against table `s` (the request
resolves token `t` and reads the clock as `now`): the `start` step performs
the SELECT and the expiry test of `redirect_url`, the `checked` step performs
the atomic UPDATE. -/
def taskStep (now : Int) (t : String) (s : Store) (p : Phase) : Store × Phase :=
  match p with
  | .start =>
      match getByToken s t with
      | none => (s, .done)
      | some row => if now > row.expires_at then (s, .done) else (s, .checked)
  | .checked => ((incrementClickCount s t).1, .done)
  | .done => (s, .done)

/-- Run a schedule: at each scheduler tick the named request (an index into
the phase list) performs its next atomic step; out-of-range indices are
ignored. -/
def runSched (now : Int) (t : String) : List Nat → Store × List Phase → Store × List Phase
  | [], sp => sp
  | i :: rest, (s, ps) =>
      match ps.get? i with
      | none => runSched now t rest (s, ps)
      | some p =>
          let sp := taskStep now t s p
          runSched now t rest (sp.1, ps.set i sp.2)

/-- A record with its click counter raised by `n`. -/
def bump (r : UrlRecord) (n : Nat) : UrlRecord :=
  { r with click_count := r.click_count + n }

/-! Concrete inputs used in counterexamples and witnesses. -/

/-- A stored record whose expiry instant is 5. -/
def exRecord : UrlRecord :=
  { id := "id1", token := "abc", original_url := "http://x",
    title := none, created_at := 0, expires_at := 5, click_count := 0 }

/-- A one-row table. -/
def exStore : Store := [exRecord]

/-- A creation payload with no explicit expiry. -/
def exPayload : CreateUrlRequest := { url := "http://x", title := none, expires_at := none }

/-- A creation payload whose explicit expiry is already in the past. -/
def exPayloadPast : CreateUrlRequest :=
  { url := "http://x", title := none, expires_at := some (-1) }

/-- A token-generator stream that always yields `"abc"`. -/
def exGen : Nat → String := fun _ => "abc"

/-- A token-generator stream agreeing with `exGen` at index 0 only. -/
def exGen2 : Nat → String := fun k => if k = 0 then "abc" else "zzz"

/-- A raw random stream for `TokenGenerator.generate`, always in range. -/
def exRng : Nat → Nat := fun i => i % 62

/-! Helper lemmas about the store operations. -/

theorem getByToken_none_of_any_false (s : Store) (tok uid : String)
    (h : s.any (fun q => q.token == tok || q.id == uid) = false) :
    getByToken s tok = none := by
  rw [getByToken, List.find?_eq_none]
  intro r hr
  simp only [List.any_eq_false] at h
  have hh := h r hr
  simp only [Bool.or_eq_true, beq_iff_eq, not_or] at hh
  simp [hh.1]

theorem getByToken_append_self (s : Store) (r : UrlRecord)
    (h : getByToken s r.token = none) :
    getByToken (s ++ [r]) r.token = some r := by
  rw [getByToken] at h
  rw [getByToken, List.find?_append, h]
  simp

theorem getByToken_increment (s : Store) (t : String) :
    getByToken (incrementClickCount s t).1 t
      = (getByToken s t).map (fun r => { r with click_count := r.click_count + 1 }) := by
  induction s with
  | nil => rfl
  | cons a as ih =>
      simp only [getByToken, incrementClickCount, List.map_cons] at ih ⊢
      by_cases h : (a.token == t) = true
      · have h1 : (fun r : UrlRecord => r.token == t) a = true := h
        have h2 : (fun r : UrlRecord => r.token == t)
            { a with click_count := a.click_count + 1 } = true := h
        rw [if_pos h, @List.find?_cons_of_pos _ (fun r : UrlRecord => r.token == t) _ _ h2,
          @List.find?_cons_of_pos _ (fun r : UrlRecord => r.token == t) _ _ h1]
        rfl
      · have h1 : ¬((fun r : UrlRecord => r.token == t) a = true) := h
        rw [if_neg h, @List.find?_cons_of_neg _ (fun r : UrlRecord => r.token == t) _ _ h1,
          @List.find?_cons_of_neg _ (fun r : UrlRecord => r.token == t) _ _ h1, ih]

theorem getByToken_delete (s : Store) (t : String) :
    getByToken (deleteByToken s t).1 t = none := by
  rw [getByToken, List.find?_eq_none]
  intro r hr
  simp only [deleteByToken, List.mem_filter, bne_iff_ne, ne_eq] at hr
  simp [hr.2]

theorem rows_delete_again (s : Store) (t : String) :
    (deleteByToken (deleteByToken s t).1 t).2 = 0 := by
  simp only [deleteByToken, List.countP_eq_zero, List.mem_filter, bne_iff_ne, ne_eq]
  intro r hr
  simp [hr.2]

theorem delete_store (st : Store) (t : String) :
    (delete_url st t).2 = (deleteByToken st t).1 := by
  unfold delete_url
  by_cases h : (deleteByToken st t).2 = 0 <;> simp [h]

theorem deleteByToken_idem (s : Store) (t : String) :
    (deleteByToken (deleteByToken s t).1 t).1 = (deleteByToken s t).1 := by
  simp [deleteByToken, List.filter_filter]

theorem create_ok (st : Store) (payload : CreateUrlRequest) (gen : Nat → String)
    (uid : String) (now1 now2 : Int)
    (hval : (strStartsWith payload.url "http://" || strStartsWith payload.url "https://") = true)
    (hconf : st.any (fun q => q.token == gen 0 || q.id == uid) = false) :
    create_short_url st payload gen uid now1 now2 =
      (.ok { id := uid, token := gen 0, original_url := payload.url,
             short_url := "http://localhost:3000/" ++ gen 0,
             title := payload.title, created_at := now1,
             expires_at := payload.expires_at.getD (now2 + thirtyDays),
             click_count := 0 },
       st ++ [{ id := uid, token := gen 0, original_url := payload.url,
                title := payload.title, created_at := now1,
                expires_at := payload.expires_at.getD (now2 + thirtyDays),
                click_count := 0 }]) := by
  have hcond : (!strStartsWith payload.url "http://"
      && !strStartsWith payload.url "https://") = false := by
    rw [← Bool.not_or, hval]
    rfl
  simp [create_short_url, insertRecord, hcond, hconf]

/-! Helper lemmas for the interleaving model. -/

theorem bump_zero (r : UrlRecord) : bump r 0 = r := by
  simp [bump]

theorem bump_step (r : UrlRecord) (n : Nat) :
    { bump r n with click_count := (bump r n).click_count + 1 } = bump r (n + 1) := by
  simp [bump, UrlRecord.mk.injEq]
  omega

theorem count_done_set (ps : List Phase) (i : Nat) (p q : Phase) (h : ps.get? i = some p) :
    (ps.set i q).count Phase.done + (if p = Phase.done then 1 else 0)
      = ps.count Phase.done + (if q = Phase.done then 1 else 0) := by
  induction ps generalizing i with
  | nil => simp at h
  | cons a as ih =>
      cases i with
      | zero =>
          simp only [List.get?_cons_zero, Option.some.injEq] at h
          subst h
          by_cases hq : q = Phase.done <;> by_cases ha : a = Phase.done <;>
            simp [hq, ha, List.count_cons]
      | succ n =>
          simp only [List.get?_cons_succ] at h
          have hih := ih n h
          by_cases ha : a = Phase.done <;>
            simp only [List.set_cons_succ, List.count_cons, ha] <;> simp <;> omega

theorem runSched_length (now : Int) (t : String) :
    ∀ (sched : List Nat) (s : Store) (ps : List Phase),
      (runSched now t sched (s, ps)).2.length = ps.length := by
  intro sched
  induction sched with
  | nil => intro s ps; rfl
  | cons i rest ih =>
      intro s ps
      cases hg : ps.get? i with
      | none => simp only [runSched, hg]; exact ih s ps
      | some p =>
          simp only [runSched, hg]
          rw [ih]
          simp

theorem runSched_inv (now : Int) (t : String) (r0 : UrlRecord)
    (hval : ¬ now > r0.expires_at) :
    ∀ (sched : List Nat) (s : Store) (ps : List Phase),
      getByToken s t = some (bump r0 (ps.count Phase.done)) →
      getByToken (runSched now t sched (s, ps)).1 t
        = some (bump r0 ((runSched now t sched (s, ps)).2.count Phase.done)) := by
  intro sched
  induction sched with
  | nil => intro s ps h; simpa [runSched] using h
  | cons i rest ih =>
      intro s ps h
      cases hg : ps.get? i with
      | none => simp only [runSched, hg]; exact ih s ps h
      | some p =>
          simp only [runSched, hg]
          cases p with
          | start =>
              have hstep : taskStep now t s Phase.start = (s, Phase.checked) := by
                simp [taskStep, h, bump, hval]
              simp only [hstep]
              refine ih s (ps.set i Phase.checked) ?_
              have hcount := count_done_set ps i Phase.start Phase.checked hg
              simp at hcount
              rw [show (ps.set i Phase.checked).count Phase.done = ps.count Phase.done by omega]
              exact h
          | checked =>
              have hstep : taskStep now t s Phase.checked
                  = ((incrementClickCount s t).1, Phase.done) := rfl
              simp only [hstep]
              refine ih (incrementClickCount s t).1 (ps.set i Phase.done) ?_
              have hcount := count_done_set ps i Phase.checked Phase.done hg
              simp at hcount
              rw [getByToken_increment, h,
                show (ps.set i Phase.done).count Phase.done = ps.count Phase.done + 1 by omega]
              exact congrArg some (bump_step r0 _)
          | done =>
              have hstep : taskStep now t s Phase.done = (s, Phase.done) := rfl
              simp only [hstep]
              refine ih s (ps.set i Phase.done) ?_
              have hcount := count_done_set ps i Phase.done Phase.done hg
              simp at hcount
              rw [show (ps.set i Phase.done).count Phase.done = ps.count Phase.done by omega]
              exact h

/-! Claim theorems. -/

/-- C1: for every valid creation input (a URL beginning with http:// or
https://) whose fresh token and id the store accepts, creating the record
and then resolving its token (before the record's expiry) returns exactly
the original submitted URL, and the record's click_count goes from 0 — its
initialized value at creation — to 1 after that first successful
resolution. -/
theorem C1_round_trip (st : Store) (payload : CreateUrlRequest) (gen : Nat → String)
    (uid : String) (now1 now2 nowR : Int)
    (hval : (strStartsWith payload.url "http://" || strStartsWith payload.url "https://") = true)
    (hconf : st.any (fun q => q.token == gen 0 || q.id == uid) = false)
    (hfresh : nowR ≤ payload.expires_at.getD (now2 + thirtyDays)) :
    respClicks (create_short_url st payload gen uid now1 now2).1 = some 0 ∧
    (getByToken (create_short_url st payload gen uid now1 now2).2 (gen 0)).map
        UrlRecord.click_count = some 0 ∧
    (redirect_url (create_short_url st payload gen uid now1 now2).2 (gen 0) nowR).1
      = .ok payload.url ∧
    (getByToken (redirect_url (create_short_url st payload gen uid now1 now2).2 (gen 0) nowR).2
        (gen 0)).map UrlRecord.click_count = some 1 := by
  have hnone : getByToken st (gen 0) = none :=
    getByToken_none_of_any_false st (gen 0) uid hconf
  rw [create_ok st payload gen uid now1 now2 hval hconf]
  have happ : getByToken
      (st ++ [{ id := uid, token := gen 0, original_url := payload.url, title := payload.title,
                created_at := now1, expires_at := payload.expires_at.getD (now2 + thirtyDays),
                click_count := 0 }]) (gen 0)
      = some { id := uid, token := gen 0, original_url := payload.url, title := payload.title,
               created_at := now1, expires_at := payload.expires_at.getD (now2 + thirtyDays),
               click_count := 0 } :=
    getByToken_append_self st _ hnone
  have hlt : ¬ nowR > payload.expires_at.getD (now2 + thirtyDays) := not_lt.mpr hfresh
  refine ⟨rfl, ?_, ?_, ?_⟩
  · simp [happ]
  · simp [redirect_url, happ, hlt]
  · simp [redirect_url, happ, hlt, getByToken_increment]

/-- C1 witness: creating `http://x` in the empty store with token `abc`, then
resolving it at time 0, round-trips the URL and moves click_count 0 → 1. -/
theorem C1_witness :
    respClicks (create_short_url [] exPayload exGen "id1" 0 0).1 = some 0 ∧
    (getByToken (create_short_url [] exPayload exGen "id1" 0 0).2 (exGen 0)).map
        UrlRecord.click_count = some 0 ∧
    (redirect_url (create_short_url [] exPayload exGen "id1" 0 0).2 (exGen 0) 0).1
      = .ok exPayload.url ∧
    (getByToken (redirect_url (create_short_url [] exPayload exGen "id1" 0 0).2 (exGen 0) 0).2
        (exGen 0)).map UrlRecord.click_count = some 1 :=
  C1_round_trip [] exPayload exGen "id1" 0 0 0 (by decide) (by decide) (by decide)

/-- C2: resolving a token whose record is expired — strictly past its
expires_at, the condition under which the code refuses the redirect — fails
with GoneError and leaves the store (in particular click_count) unchanged:
the increment sits on the branch reached only after the expiration check has
passed (check-then-increment). -/
theorem C2_expired_leaves_store (st : Store) (t : String) (r : UrlRecord) (now : Int)
    (hfound : getByToken st t = some r) (hexp : r.expires_at < now) :
    (redirect_url st t now).1 = .error (.Gone "URL has expired") ∧
    (redirect_url st t now).2 = st := by
  simp [redirect_url, hfound, hexp]

/-- C2 witness: the record expiring at 5, resolved at 6, yields GoneError and
an unchanged store. -/
theorem C2_witness :
    (redirect_url exStore "abc" 6).1 = .error (.Gone "URL has expired") ∧
    (redirect_url exStore "abc" 6).2 = exStore :=
  C2_expired_leaves_store exStore "abc" exRecord 6 (by decide) (by decide)

/-- C3 counterexample: the stored record expires at 5 and is resolved at
now = 5, so expires_at ≤ now holds, yet the resolution succeeds with the
redirect instead of failing with GoneError. -/
theorem C3_counterexample :
    getByToken exStore "abc" = some exRecord ∧
    exRecord.expires_at ≤ 5 ∧
    (redirect_url exStore "abc" 5).1 = .ok "http://x" ∧
    isGone (redirect_url exStore "abc" 5).1 = false := by
  decide

/-- C3 (amended): when a record for the token exists, resolution fails with
GoneError iff now is strictly greater than expires_at (the code checks
`Utc::now() > expires_at`); in particular at the exact instant now =
expires_at the resolution succeeds and redirects rather than failing. -/
theorem C3_expiry_strict (st : Store) (t : String) (r : UrlRecord) (now : Int)
    (hfound : getByToken st t = some r) :
    (isGone (redirect_url st t now).1 = true ↔ r.expires_at < now) ∧
    (now = r.expires_at → (redirect_url st t now).1 = .ok r.original_url) := by
  constructor
  · by_cases h : r.expires_at < now <;> simp [redirect_url, hfound, h, isGone]
  · intro hb
    simp [redirect_url, hfound, hb]

/-- C3 witness: the boundary instant now = 5 = expires_at on the concrete
record: not gone, and the redirect succeeds. -/
theorem C3_witness :
    (isGone (redirect_url exStore "abc" 5).1 = true ↔ exRecord.expires_at < 5) ∧
    (5 = exRecord.expires_at → (redirect_url exStore "abc" 5).1 = .ok exRecord.original_url) :=
  C3_expiry_strict exStore "abc" exRecord 5 (by decide)

/-- C4: creation fails with ValidationError (BadRequest, mapped to 400) iff
the URL starts with neither http:// nor https://; on that failure the store
is left unwritten; any URL carrying one of the two prefixes passes
validation, and when the store raises no token/id conflict the creation
succeeds — no further well-formedness check exists. -/
theorem C4_validation (st : Store) (payload : CreateUrlRequest) (gen : Nat → String)
    (uid : String) (now1 now2 : Int) :
    (isBadRequest (create_short_url st payload gen uid now1 now2).1
       = !(strStartsWith payload.url "http://" || strStartsWith payload.url "https://")) ∧
    (isBadRequest (create_short_url st payload gen uid now1 now2).1 = true →
       (create_short_url st payload gen uid now1 now2).2 = st) ∧
    ((strStartsWith payload.url "http://" || strStartsWith payload.url "https://") = true →
       st.any (fun q => q.token == gen 0 || q.id == uid) = false →
       isOk (create_short_url st payload gen uid now1 now2).1 = true) := by
  by_cases h : (strStartsWith payload.url "http://" || strStartsWith payload.url "https://") = true
  · have hcond : (!strStartsWith payload.url "http://"
        && !strStartsWith payload.url "https://") = false := by
      rw [← Bool.not_or, h]
      rfl
    refine ⟨?_, ?_, ?_⟩
    · rw [h]
      simp only [create_short_url, hcond, Bool.not_true, Bool.false_eq_true, if_false]
      split <;> rfl
    · intro hbad
      exfalso
      revert hbad
      simp only [create_short_url, hcond, Bool.false_eq_true, if_false]
      split <;> simp [isBadRequest]
    · intro _ hconf
      rw [create_ok st payload gen uid now1 now2 h hconf]
      rfl
  · have h' : (strStartsWith payload.url "http://" || strStartsWith payload.url "https://")
        = false := by
      revert h
      cases strStartsWith payload.url "http://" || strStartsWith payload.url "https://" <;> simp
    have hcond : (!strStartsWith payload.url "http://"
        && !strStartsWith payload.url "https://") = true := by
      rw [← Bool.not_or, h']
      rfl
    refine ⟨?_, ?_, ?_⟩
    · rw [h']
      simp only [create_short_url, hcond, if_true]
      rfl
    · intro _
      simp only [create_short_url, hcond, if_true]
    · intro hx
      rw [hx] at h'
      cases h'

/-- C5 counterexample: creating with no supplied expires_at, with created_at
read as 0 and the second clock read (inside the defaulting closure) as 1,
stores expires_at = 1 + 30 days, which differs from created_at + 30 days. -/
theorem C5_counterexample :
    respCreated (create_short_url [] exPayload exGen "id1" 0 1).1 = some 0 ∧
    respExpires (create_short_url [] exPayload exGen "id1" 0 1).1 = some (1 + thirtyDays) ∧
    respExpires (create_short_url [] exPayload exGen "id1" 0 1).1 ≠ some (0 + thirtyDays) := by
  decide

/-- C5 (amended): when expires_at is absent, the created record's expires_at
equals now2 + 30 days, where now2 is the second `Utc::now()` read taken while
defaulting (not created_at, which is the first read now1); the two agree
exactly when the clock readings coincide. -/
theorem C5_default_expiry (st : Store) (payload : CreateUrlRequest) (gen : Nat → String)
    (uid : String) (now1 now2 : Int)
    (hnone : payload.expires_at = none)
    (hval : (strStartsWith payload.url "http://" || strStartsWith payload.url "https://") = true)
    (hconf : st.any (fun q => q.token == gen 0 || q.id == uid) = false) :
    respCreated (create_short_url st payload gen uid now1 now2).1 = some now1 ∧
    respExpires (create_short_url st payload gen uid now1 now2).1 = some (now2 + thirtyDays) ∧
    (getByToken (create_short_url st payload gen uid now1 now2).2 (gen 0)).map
        UrlRecord.expires_at = some (now2 + thirtyDays) := by
  have hnoneD : payload.expires_at.getD (now2 + thirtyDays) = now2 + thirtyDays := by
    rw [hnone]
    rfl
  have hnoneT : getByToken st (gen 0) = none :=
    getByToken_none_of_any_false st (gen 0) uid hconf
  rw [create_ok st payload gen uid now1 now2 hval hconf]
  have happ : getByToken
      (st ++ [{ id := uid, token := gen 0, original_url := payload.url, title := payload.title,
                created_at := now1, expires_at := payload.expires_at.getD (now2 + thirtyDays),
                click_count := 0 }]) (gen 0)
      = some { id := uid, token := gen 0, original_url := payload.url, title := payload.title,
               created_at := now1, expires_at := payload.expires_at.getD (now2 + thirtyDays),
               click_count := 0 } :=
    getByToken_append_self st _ hnoneT
  refine ⟨rfl, ?_, ?_⟩
  · simp [respExpires, hnoneD]
  · rw [hnoneD] at happ ⊢
    simp [happ]

/-- C5 witness: creating in the empty store with now1 = 0 and now2 = 1 gives
created_at 0 and expires_at 1 + 30 days. -/
theorem C5_witness :
    respCreated (create_short_url [] exPayload exGen "id1" 0 1).1 = some 0 ∧
    respExpires (create_short_url [] exPayload exGen "id1" 0 1).1 = some (1 + thirtyDays) ∧
    (getByToken (create_short_url [] exPayload exGen "id1" 0 1).2 (exGen 0)).map
        UrlRecord.expires_at = some (1 + thirtyDays) :=
  C5_default_expiry [] exPayload exGen "id1" 0 1 rfl (by decide) rfl

/-- C6: creation performs exactly one token generation — its outcome depends
only on the first draw of the generator stream, so two streams agreeing on
draw 0 give identical results — and on a token/id uniqueness conflict it
performs no retry: the single insert attempt fails and the conflict is
surfaced as a hard DatabaseError (a store error) with the store unchanged. -/
theorem C6_no_retry (st : Store) (payload : CreateUrlRequest) (gen gen2 : Nat → String)
    (uid : String) (now1 now2 : Int)
    (hagree : gen 0 = gen2 0) :
    create_short_url st payload gen uid now1 now2
      = create_short_url st payload gen2 uid now1 now2 ∧
    ((strStartsWith payload.url "http://" || strStartsWith payload.url "https://") = true →
     st.any (fun q => q.token == gen 0 || q.id == uid) = true →
     create_short_url st payload gen uid now1 now2
       = (.error (.DatabaseError conflictMsg), st)) := by
  constructor
  · simp only [create_short_url, hagree]
  · intro hval hconf
    have hcond : (!strStartsWith payload.url "http://"
        && !strStartsWith payload.url "https://") = false := by
      rw [← Bool.not_or, hval]
      rfl
    simp [create_short_url, insertRecord, hcond, hconf]

/-- C6 witness: with token `abc` already stored, two streams that agree only
on their first draw produce the same outcome, and the creation fails hard
with a store error leaving the table unchanged. -/
theorem C6_witness :
    create_short_url exStore exPayload exGen "id9" 0 0
      = create_short_url exStore exPayload exGen2 "id9" 0 0 ∧
    create_short_url exStore exPayload exGen "id9" 0 0
      = (.error (.DatabaseError conflictMsg), exStore) := by
  have h := C6_no_retry exStore exPayload exGen exGen2 "id9" 0 0 rfl
  exact ⟨h.1, h.2 (by decide) (by decide)⟩

/-- C7 counterexample: deleting token `abc` from the one-row table and then
deleting it again: the second DELETE matches zero rows, and the handler
reports that second delete as a NotFound error (HTTP 404) rather than
treating it as a non-error. -/
theorem C7_counterexample :
    (deleteByToken (delete_url exStore "abc").2 "abc").2 = 0 ∧
    (delete_url (delete_url exStore "abc").2 "abc").1
      = .error (.NotFound "URL not found") := by
  decide

/-- C7 (amended): deleting a token removes the record, so a subsequent
resolution of that token fails with NotFoundError; a second delete of the
same token matches zero rows at the store — the DELETE statement itself is
not an error and changes nothing — but the handler then reports
NotFoundError (404) instead of success. -/
theorem C7_delete_then_missing (st : Store) (t : String) (now : Int) :
    getByToken (delete_url st t).2 t = none ∧
    (redirect_url (delete_url st t).2 t now).1 = .error (.NotFound "URL not found") ∧
    (deleteByToken (delete_url st t).2 t).2 = 0 ∧
    (delete_url (delete_url st t).2 t).1 = .error (.NotFound "URL not found") ∧
    (delete_url (delete_url st t).2 t).2 = (delete_url st t).2 := by
  have h2 := delete_store st t
  have hnone : getByToken (delete_url st t).2 t = none := by
    rw [h2]
    exact getByToken_delete st t
  have hrows : (deleteByToken (delete_url st t).2 t).2 = 0 := by
    rw [h2]
    exact rows_delete_again st t
  refine ⟨hnone, ?_, hrows, ?_, ?_⟩
  · simp [redirect_url, hnone]
  · generalize hX : (delete_url st t).2 = X at hrows
    simp [delete_url, hrows]
  · rw [delete_store ((delete_url st t).2) t, h2, deleteByToken_idem, ← h2]

/-- C8: every token produced by the generator has exactly the configured
length (default 6 via `TokenGenerator::new`), and all of its characters come
from the 62-symbol CHARSET of upper-case letters, lower-case letters and
digits. -/
theorem C8_token_shape (g : TokenGenerator) (rng : Nat → Nat)
    (hr : ∀ i, rng i < CHARSET.length) :
    (g.generate rng).length = g.length ∧
    CHARSET.length = 62 ∧
    TokenGenerator.new.length = 6 ∧
    ((g.generate rng).data.all (fun c => CHARSET.contains c)) = true := by
  have h62 : CHARSET.length = 62 := by decide
  refine ⟨?_, h62, rfl, ?_⟩
  · simp [TokenGenerator.generate, String.length]
  · have hmem : ∀ n, n < 62 → CHARSET.contains (CHARSET.getD n 'A') = true := by decide
    rw [List.all_eq_true]
    intro c hc
    simp only [TokenGenerator.generate] at hc
    rcases List.mem_map.1 hc with ⟨i, _, rfl⟩
    exact hmem (rng i) (h62 ▸ hr i)

/-- C8 witness: the default generator fed an in-range stream yields a
6-character token drawn from CHARSET. -/
theorem C8_witness :
    (TokenGenerator.new.generate exRng).length = TokenGenerator.new.length ∧
    CHARSET.length = 62 ∧
    TokenGenerator.new.length = 6 ∧
    ((TokenGenerator.new.generate exRng).data.all (fun c => CHARSET.contains c)) = true :=
  C8_token_shape TokenGenerator.new exRng (fun i => by
    show i % 62 < CHARSET.length
    have h62 : CHARSET.length = 62 := by decide
    rw [h62]
    exact Nat.mod_lt i (by decide))

/-- C9: N concurrent resolutions of a valid (non-expired) token — modelled
as N two-step tasks (atomic SELECT-and-check, then the store's atomic
`click_count = click_count + 1` UPDATE) interleaved by an arbitrary
schedule — leave the token's click_count at its prior value plus N whenever
all N tasks have run to completion: the counter mutation is a single atomic
read-modify-write in the store, so no update is lost. -/
theorem C9_concurrent_increments (s : Store) (t : String) (r0 : UrlRecord) (now : Int)
    (N : Nat) (sched : List Nat)
    (hfound : getByToken s t = some r0)
    (hvalid : now ≤ r0.expires_at)
    (hdone : ∀ p ∈ (runSched now t sched (s, List.replicate N Phase.start)).2, p = Phase.done) :
    getByToken (runSched now t sched (s, List.replicate N Phase.start)).1 t
      = some (bump r0 N) := by
  have hval : ¬ now > r0.expires_at := not_lt.mpr hvalid
  have h0 : (List.replicate N Phase.start).count Phase.done = 0 := by
    simp [List.count_replicate]
  have hinv := runSched_inv now t r0 hval sched s (List.replicate N Phase.start)
    (by rw [h0, bump_zero]; exact hfound)
  have hlen := runSched_length now t sched s (List.replicate N Phase.start)
  have hcnt : ((runSched now t sched (s, List.replicate N Phase.start)).2).count Phase.done
      = (runSched now t sched (s, List.replicate N Phase.start)).2.length :=
    List.count_eq_length.2 (fun b hb => (hdone b hb).symm)
  rw [hinv, hcnt, hlen, List.length_replicate]

/-- C9 witness: two interleaved resolutions of the valid token (schedule
0,1,0,1: both SELECTs, then both UPDATEs) raise click_count from 0 to 2 —
no update is lost. -/
theorem C9_witness :
    getByToken (runSched 3 "abc" [0, 1, 0, 1] (exStore, List.replicate 2 Phase.start)).1 "abc"
      = some (bump exRecord 2) :=
  C9_concurrent_increments exStore "abc" exRecord 3 2 [0, 1, 0, 1]
    (by decide) (by decide) (by decide)

/-- C10: a creation request may carry an expires_at already in the past —
the service never compares it with the clock, so the creation succeeds and
stores it — and then every resolution at or after the creation instant fails
with GoneError while leaving the store, hence click_count, untouched. -/
theorem C10_past_expiry (st : Store) (payload : CreateUrlRequest) (gen : Nat → String)
    (uid : String) (now1 now2 nowR e : Int)
    (hsome : payload.expires_at = some e)
    (hpast : e < now1)
    (hval : (strStartsWith payload.url "http://" || strStartsWith payload.url "https://") = true)
    (hconf : st.any (fun q => q.token == gen 0 || q.id == uid) = false)
    (hafter : now1 ≤ nowR) :
    isOk (create_short_url st payload gen uid now1 now2).1 = true ∧
    respExpires (create_short_url st payload gen uid now1 now2).1 = some e ∧
    (redirect_url (create_short_url st payload gen uid now1 now2).2 (gen 0) nowR).1
      = .error (.Gone "URL has expired") ∧
    (redirect_url (create_short_url st payload gen uid now1 now2).2 (gen 0) nowR).2
      = (create_short_url st payload gen uid now1 now2).2 := by
  have hD : payload.expires_at.getD (now2 + thirtyDays) = e := by
    rw [hsome]
    rfl
  have hnone : getByToken st (gen 0) = none :=
    getByToken_none_of_any_false st (gen 0) uid hconf
  rw [create_ok st payload gen uid now1 now2 hval hconf]
  have happ : getByToken
      (st ++ [{ id := uid, token := gen 0, original_url := payload.url, title := payload.title,
                created_at := now1, expires_at := payload.expires_at.getD (now2 + thirtyDays),
                click_count := 0 }]) (gen 0)
      = some { id := uid, token := gen 0, original_url := payload.url, title := payload.title,
               created_at := now1, expires_at := payload.expires_at.getD (now2 + thirtyDays),
               click_count := 0 } :=
    getByToken_append_self st _ hnone
  have hgt : nowR > e := lt_of_lt_of_le hpast hafter
  rw [hD] at happ
  refine ⟨rfl, by simp [respExpires, hD], ?_, ?_⟩
  · simp [redirect_url, happ, hD, hgt]
  · simp [redirect_url, happ, hD, hgt]

/-- C10 witness: creating with expires_at = -1 at time 0 succeeds, and
resolving at time 0 fails with GoneError leaving the store unchanged. -/
theorem C10_witness :
    isOk (create_short_url [] exPayloadPast exGen "id1" 0 0).1 = true ∧
    respExpires (create_short_url [] exPayloadPast exGen "id1" 0 0).1 = some (-1) ∧
    (redirect_url (create_short_url [] exPayloadPast exGen "id1" 0 0).2 (exGen 0) 0).1
      = .error (.Gone "URL has expired") ∧
    (redirect_url (create_short_url [] exPayloadPast exGen "id1" 0 0).2 (exGen 0) 0).2
      = (create_short_url [] exPayloadPast exGen "id1" 0 0).2 :=
  C10_past_expiry [] exPayloadPast exGen "id1" 0 0 0 (-1)
    (by decide) (by decide) (by decide) (by decide) (by decide)

end QuickURL
